import Mathlib

/-!
Verification of the CourseSnag web client core (`src/app.js`).

This file gives a shallow embedding of the application's core logic:
the rate-limited request scheduler (`rateLimitedFetch`), the search
coordinator (`parseSearchInput`, `debounceSearch`, `performSearch`),
the alert-suppression registry (`dismissAlertFor5Minutes`,
`isAlertDismissed`), the tracking store (`toggleTrack`, `untrack`,
`loadTrackedSections`), the polling engine (`refreshTrackedSections`),
and the alert dispatch path (`triggerOpenAlert`,
`showAlertsForOpenSections`).  Machine timestamps are modelled as
natural numbers of milliseconds; DOM, audio and notification
collaborators are modelled by the observable requests the core makes
of them.  Theorems at the end settle the specification claims.
-/

namespace CourseSnag

set_option autoImplicit false

/-! ## Configuration constants (src/app.js lines 9-14) -/

def DEBOUNCE_DELAY_MS : Nat := 400

def RATE_LIMIT_MS : Nat := 1000

/-! ## Small string helpers

JavaScript string primitives are embedded by structurally recursive
functions over the character list: `jsTrim` embeds `.trim()`, `jsToUpper`
embeds `.toUpperCase()` (ASCII range), `jsStartsWith` embeds
`.startsWith(...)` and `strIncludes s sub` embeds `s.includes(sub)`. -/

def jsTrim (s : String) : String :=
  String.mk (((s.toList.dropWhile Char.isWhitespace).reverse.dropWhile Char.isWhitespace).reverse)

def jsToUpper (s : String) : String :=
  String.mk (s.toList.map Char.toUpper)

def normalizeInput (s : String) : String := jsToUpper (jsTrim s)

def jsStartsWith (s pre : String) : Bool :=
  pre.toList.isPrefixOf s.toList

def strIncludes (s sub : String) : Bool :=
  (List.range (s.toList.length + 1)).any (fun i => sub.toList.isPrefixOf (s.toList.drop i))

/-- Embedding of `getUserFriendlyError(error, context)` (lines 429-444);
an error value is modelled by its `message` string. -/
def getUserFriendlyError (msg context : String) : String :=
  if strIncludes msg "Failed to fetch" || strIncludes msg "NetworkError" then
    "Unable to connect. Check your internet connection."
  else if strIncludes msg "API error: 404" then
    context ++ " not found."
  else if strIncludes msg "API error: 429" then
    "Too many requests. Please wait a moment."
  else if strIncludes msg "API error: 5" then
    "Cornell server error. Try again later."
  else if msg == "" then
    "An unexpected error occurred."
  else
    msg

/-! ## Rate-limited request scheduler (`rateLimitedFetch`, lines 446-473)

The task body first computes `timeSinceLast = now - state.lastRequestTime`;
if that is below `RATE_LIMIT_MS` it sleeps for the remainder, then records
the dispatch instant in `state.lastRequestTime` and performs the fetch.
`dispatchStart last ready` is the instant at which the task that becomes
runnable at time `ready` (its predecessor in the promise chain has just
settled) actually dispatches, given that the previous dispatch began at
`last`. -/

def dispatchStart (lastRequestTime ready : Nat) : Nat :=
  let timeSinceLast := ready - lastRequestTime
  if timeSinceLast < RATE_LIMIT_MS then
    ready + (RATE_LIMIT_MS - timeSinceLast)
  else
    ready

/-- Dispatch instants of a serial chain of tasks: the i-th task becomes
runnable at `readyTimes[i]` and dispatches at `dispatchStart` of the
previous dispatch instant.  The chain `state.requestQueue.then(task, task)`
runs tasks strictly one at a time in submission order, so the list order
is submission order. -/
def dispatchTimes (lastRequestTime : Nat) : List Nat → List Nat
  | [] => []
  | r :: rs =>
    let d := dispatchStart lastRequestTime r
    d :: dispatchTimes d rs

/-- A list of ready times is realisable for the promise chain: a task can
only become runnable once the previous dispatch has begun (the previous
task settles after its own dispatch start, and the machine clock is
monotone), and the first task becomes runnable no earlier than the stored
`lastRequestTime` (which was recorded at some past instant). -/
def validReady (lastRequestTime : Nat) : List Nat → Bool
  | [] => true
  | r :: rs => decide (lastRequestTime ≤ r) && validReady (dispatchStart lastRequestTime r) rs

/-- Consecutive entries of the list are at least `RATE_LIMIT_MS` apart. -/
def spacedOk : List Nat → Bool
  | a :: b :: rest => decide (a + RATE_LIMIT_MS ≤ b) && spacedOk (b :: rest)
  | _ => true

/-! ### The promise-chain outcome model (`rateLimitedFetch`, lines 470-472)

`state.requestQueue.then(task, task)` installs the task as both the
fulfilment and the rejection handler, and the queue is then replaced by
`taskPromise.catch(() => {})`.  Outcomes are modelled with `Except`. -/

def promiseThenBoth {ε α : Type} (prev : Except ε Unit) (task : Unit → Except ε α) : Except ε α :=
  match prev with
  | Except.ok _ => task ()
  | Except.error _ => task ()

/-- Embedding of `.catch(() => {})`: a rejected queue promise is replaced
by a fulfilled one, a fulfilled one stays fulfilled. -/
def promiseCatchAll {ε α : Type} (p : Except ε α) : Except ε Unit :=
  match p with
  | Except.ok _ => Except.ok ()
  | Except.error _ => Except.ok ()

/-- Running a list of submitted tasks through the queue: each submission
chains `queue.then(task, task)` and replaces the queue by
`taskPromise.catch(() => {})`.  Returns the settled outcome delivered to
each submission's caller, in submission order. -/
def runQueue {ε α : Type} (queue : Except ε Unit) : List (Unit → Except ε α) → List (Except ε α)
  | [] => []
  | t :: ts =>
    let r := promiseThenBoth queue t
    r :: runQueue (promiseCatchAll r) ts

/-! ## Alert-suppression registry (lines 85, 352-379)

`dismissedAlerts` is a `Map` from tracked key to expiration timestamp;
we model it as an association list with `Map.set` semantics (replace the
existing binding, else append). -/

abbrev DismissMap : Type := List (String × Nat)

def dismissGet (m : DismissMap) (k : String) : Option Nat :=
  (m.find? (fun p => p.1 == k)).map (fun p => p.2)

def dismissSet (m : DismissMap) (k : String) (v : Nat) : DismissMap :=
  if m.any (fun p => p.1 == k) then
    m.map (fun p => if p.1 == k then (k, v) else p)
  else
    m ++ [(k, v)]

def dismissDelete (m : DismissMap) (k : String) : DismissMap :=
  m.filter (fun p => p.1 != k)

/-- Embedding of `dismissAlertFor5Minutes(trackedKey)` (lines 352-367):
records `now + 5 * 60 * 1000` as the expiration for the key.  (The
function also schedules a background deletion at that expiration; that
deletion is modelled where needed as `dismissDelete` applied later.) -/
def dismissAlertFor5Minutes (m : DismissMap) (now : Nat) (trackedKey : String) : DismissMap :=
  dismissSet m trackedKey (now + 5 * 60 * 1000)

/-- Embedding of `isAlertDismissed(trackedKey)` (lines 369-379): returns
whether the key is currently suppressed, together with the registry after
the call (an expired entry is deleted by the query itself). -/
def isAlertDismissed (m : DismissMap) (now : Nat) (trackedKey : String) : Bool × DismissMap :=
  match dismissGet m trackedKey with
  | none => (false, m)
  | some expirationTime =>
    if now > expirationTime then
      (false, dismissDelete m trackedKey)
    else
      (true, m)

/-! ## Catalog data model

Shapes of the remote service's response records, as consumed by the
client (`extractSections`, `refreshTrackedSections`): a course carries
`enrollGroups`, each carrying `classSections` with a class number and an
`openStatus` letter (`"O"`, `"C"`, `"W"`, ...). -/

structure ClassSection where
  classNbr : String
  sectionLabel : String
  ssrComponent : String
  openStatus : String
deriving DecidableEq

structure EnrollGroup where
  classSections : List ClassSection
deriving DecidableEq

structure Course where
  subject : String
  catalogNbr : String
  titleShort : String
  enrollGroups : List EnrollGroup
deriving DecidableEq

/-! ## Search input parsing (`parseSearchInput`, lines 500-518)

The regex `^([A-Z]+)\s*(\d.*)?$` is unfolded by hand: a maximal run of
capital letters, optional whitespace, then either the end of the string
or a digit-led remainder containing no line terminator (`.` in a
JavaScript regex does not match line terminators). -/

def jsSpaceChar (c : Char) : Bool :=
  c == ' ' || c == '\t' || c == '\n' || c == '\r' || c == Char.ofNat 11 || c == Char.ofNat 12

def jsLineTerm (c : Char) : Bool :=
  c == '\n' || c == '\r' || c == Char.ofNat 0x2028 || c == Char.ofNat 0x2029

def matchSubjectQuery (trimmed : String) : Option (String × String) :=
  let cs := trimmed.toList
  let letters := cs.takeWhile (fun c => 'A' ≤ c && c ≤ 'Z')
  let rest := cs.dropWhile (fun c => 'A' ≤ c && c ≤ 'Z')
  if letters.isEmpty then none
  else
    let rest2 := rest.dropWhile jsSpaceChar
    match rest2 with
    | [] => some (String.mk letters, "")
    | d :: ds =>
      if d.isDigit && ds.all (fun c => !(jsLineTerm c)) then
        some (String.mk letters, jsTrim (String.mk rest2))
      else
        none

/-- Embedding of `parseSearchInput(input)`: trim and uppercase the raw
input, match the subject/number pattern, and validate the subject against
the known subject set (`state.subjectSet`). -/
def parseSearchInput (subjectSet : List String) (input : String) : Option (String × String) :=
  let trimmed := normalizeInput input
  if trimmed == "" then none
  else
    match matchSubjectQuery trimmed with
    | none => none
    | some (subject, query) =>
      if subjectSet.contains subject then some (subject, query) else none

/-! ## Search coordinator state (`state`, lines 19-51, search-relevant part) -/

structure SearchState where
  subjectSet : List String
  currentRoster : String
  cachedSubject : Option String
  cachedClasses : List Course
  searchResults : List Course
  searchError : Option String
  isSearching : Bool
  searchRequestSeq : Nat
  inputValue : String
  expandedCourses : List String
  searchStatus : String
deriving DecidableEq

def courseId (c : Course) : String := c.subject ++ "-" ++ c.catalogNbr

/-- The client-side filter block of `performSearch` (lines 835-857):
clear `searchError`, filter the cached listing by catalog-number prefix
when a numeric query is present, set the status line, and auto-expand
when exactly one course remains. -/
def applyFilter (s : SearchState) (subject query : String) : SearchState :=
  let s1 := { s with searchError := none }
  let s2 :=
    if query != "" then
      let results := s1.cachedClasses.filter (fun c => jsStartsWith c.catalogNbr query)
      { s1 with searchResults := results,
                searchStatus := "Showing " ++ toString results.length ++ " result(s) for "
                  ++ subject ++ " " ++ query }
    else
      { s1 with searchResults := s1.cachedClasses,
                searchStatus := "Showing " ++ toString s1.cachedClasses.length ++ " class(es) in "
                  ++ subject }
  match s2.searchResults with
  | [c] => { s2 with expandedCourses := [courseId c] }
  | _ => s2

/-- Embedding of the closure `isCurrentSearch` captured by `performSearch`
(lines 786-788), evaluated against the state at response time. -/
def isCurrentSearch (s : SearchState) (requestSeq : Nat) (normalizedInput : String) : Bool :=
  requestSeq == s.searchRequestSeq && normalizeInput s.inputValue == normalizedInput

/-- Result of the synchronous part of `performSearch` (lines 782-812):
either the call completed without any network activity, or it suspended
on a fetch for `subject` tagged with `seq` and `normalizedInput`. -/
inductive SearchStartResult where
  | done (s : SearchState)
  | fetching (s : SearchState) (seq : Nat) (normalizedInput subject query : String)
deriving DecidableEq

/-- Embedding of `performSearch` up to its suspension point: bump the
sequence number, parse the input; on invalid input reset the search
surface; when the parsed subject differs from the cached one, begin a
fetch (`isSearching := true`, expansion cleared); otherwise fall through
to the synchronous local filter. -/
def performSearchStart (s0 : SearchState) : SearchStartResult :=
  let normalizedInput := normalizeInput s0.inputValue
  let s := { s0 with searchRequestSeq := s0.searchRequestSeq + 1 }
  match parseSearchInput s.subjectSet s.inputValue with
  | none =>
    SearchStartResult.done
      { s with searchResults := [], cachedSubject := none, cachedClasses := [],
               expandedCourses := [], searchError := none, searchStatus := "" }
  | some (subject, query) =>
    if s.cachedSubject != some subject then
      SearchStartResult.fetching
        { s with expandedCourses := [], isSearching := true }
        s.searchRequestSeq normalizedInput subject query
    else
      SearchStartResult.done (applyFilter s subject query)

/-- Embedding of the continuation of `performSearch` after the fetch
settles (lines 813-857): a response is applied only while
`isCurrentSearch()` holds; a stale response leaves the state untouched.
A current success replaces the cache wholesale and runs the local filter;
a current failure records a query-scoped error and clears the cache, the
results and the searching flag. -/
def applySearchResponse (s : SearchState) (requestSeq : Nat)
    (normalizedInput subject query : String)
    (response : Except String (List Course)) : SearchState :=
  match response with
  | Except.ok classes =>
    if !(isCurrentSearch s requestSeq normalizedInput) then s
    else
      let s1 := { s with cachedClasses := classes, cachedSubject := some subject,
                         isSearching := false }
      applyFilter s1 subject query
  | Except.error msg =>
    if !(isCurrentSearch s requestSeq normalizedInput) then s
    else
      { s with searchError := some (getUserFriendlyError msg "Subject"),
               searchStatus := "",
               cachedClasses := [], cachedSubject := none,
               searchResults := [], isSearching := false }

/-! ## Debounce machine (`debounceSearch`, lines 860-873, plus the
suspension structure of `performSearch`)

An explicit event machine over the coordinator: events are user input
(the search field now holds the given text), the debounce timer firing,
and a fetch response arriving for a given sequence number.  `pending`
holds suspended `performSearch` continuations (seq, normalized input,
subject, query); `fetchCount` counts network requests issued. -/

structure CoordState where
  search : SearchState
  timerPending : Bool
  pending : List (Nat × String × String × String)
  fetchCount : Nat
deriving DecidableEq

inductive CoordEvent where
  | inputEv (text : String)
  | timerFire
  | respond (seq : Nat) (response : Except String (List Course))

/-- Run `performSearch` from the current coordinator state: a `fetching`
result issues one network request and suspends its continuation. -/
def doPerformSearch (m : CoordState) : CoordState :=
  match performSearchStart m.search with
  | SearchStartResult.done s' => { m with search := s' }
  | SearchStartResult.fetching s' seq norm subject query =>
    { m with search := s',
             pending := m.pending ++ [(seq, norm, subject, query)],
             fetchCount := m.fetchCount + 1 }

/-- One step of the coordinator.  `inputEv` embeds the input event handler
plus `debounceSearch`: same-subject input cancels the timer and runs
`performSearch` synchronously; otherwise the timer is (re)armed.
`timerFire` runs a pending debounced `performSearch`.  `respond`
delivers a fetch result to its suspended continuation. -/
def coordStep (m0 : CoordState) : CoordEvent → CoordState
  | CoordEvent.inputEv text =>
    let m := { m0 with search := { m0.search with inputValue := text } }
    match parseSearchInput m.search.subjectSet text with
    | some (subject, _) =>
      if m.search.cachedSubject == some subject then
        doPerformSearch { m with timerPending := false }
      else
        { m with timerPending := true }
    | none => { m with timerPending := true }
  | CoordEvent.timerFire =>
    if m0.timerPending then doPerformSearch { m0 with timerPending := false } else m0
  | CoordEvent.respond seq response =>
    match m0.pending.find? (fun p => p.1 == seq) with
    | none => m0
    | some (sq, norm, subject, query) =>
      { m0 with pending := m0.pending.filter (fun p => p.1 != seq),
                search := applySearchResponse m0.search sq norm subject query response }

def coordRun (m : CoordState) (events : List CoordEvent) : CoordState :=
  events.foldl coordStep m

/-! ## Tracking store (lines 895-987)

`state.trackedSections` is the list, `state.trackedKeySet` the parallel
`Set` of `` `${roster}:${classNbr}` `` keys; the `Set` is modelled as a
duplicate-free list in insertion order. -/

structure TrackedItem where
  classNbr : String
  roster : String
  subject : String
  catalogNbr : String
  title : String
  sectionLabel : String
  ssrComponent : String
  lastStatus : String
  lastCheckedAt : Nat
deriving DecidableEq

def itemKey (item : TrackedItem) : String := item.roster ++ ":" ++ item.classNbr

def keysOf (items : List TrackedItem) : List String := items.map itemKey

def keySetAdd (s : List String) (k : String) : List String :=
  if k ∈ s then s else s ++ [k]

def keySetDelete (s : List String) (k : String) : List String :=
  s.filter (fun x => x != k)

structure TrackState where
  trackedSections : List TrackedItem
  trackedKeySet : List String
deriving DecidableEq

/-- Embedding of `loadTrackedSections()` (lines 895-901): the stored list
is adopted as-is and the key set is rebuilt from it (`new Set(...)`
dedups, keeping first occurrences). -/
def loadTrackedSections (stored : List TrackedItem) : TrackState :=
  { trackedSections := stored,
    trackedKeySet := stored.foldl (fun s item => keySetAdd s (itemKey item)) [] }

/-- Embedding of `toggleTrack(...)` (lines 921-951), tracking-state part:
a no-op when the key is already present, otherwise the new item is pushed
and its key added.  (The immediate alert for an already-open section is
`triggerOpenAlert [newItem]`, modelled separately.) -/
def toggleTrack (st : TrackState) (currentRoster classNbr subject catalogNbr title
    sectionLabel ssrComponent openStatus : String) (now : Nat) : TrackState :=
  let classNbrStr := classNbr
  let trackKey := currentRoster ++ ":" ++ classNbrStr
  if trackKey ∈ st.trackedKeySet then st
  else
    let newItem : TrackedItem :=
      { classNbr := classNbrStr, roster := currentRoster, subject := subject,
        catalogNbr := catalogNbr, title := title, sectionLabel := sectionLabel,
        ssrComponent := ssrComponent, lastStatus := openStatus, lastCheckedAt := now }
    { trackedSections := st.trackedSections ++ [newItem],
      trackedKeySet := keySetAdd st.trackedKeySet trackKey }

/-- Embedding of `untrack(classNbr, roster)` (lines 953-987), tracking and
suppression part: every entry matching the class number (and the roster,
when one is given) is removed; the removed keys are deleted from the key
set and cleared from the dismissal registry.  Returns the new tracking
state, the new registry, and the removed keys. -/
def untrack (st : TrackState) (dismissed : DismissMap) (classNbr : String)
    (roster : Option String) : TrackState × DismissMap × List String :=
  let classNbrStr := classNbr
  let matches_ : TrackedItem → Bool := fun t =>
    t.classNbr == classNbrStr && (roster.isNone || some t.roster == roster)
  let removed := (st.trackedSections.filter matches_).map itemKey
  let kept := st.trackedSections.filter (fun t => !(matches_ t))
  let keySet := removed.foldl keySetDelete st.trackedKeySet
  let dism := removed.foldl
    (fun dm k => if (dismissGet dm k).isSome then dismissDelete dm k else dm) dismissed
  (⟨kept, keySet⟩, dism, removed)

/-! ## Alert dispatch (`triggerOpenAlert`, lines 269-311;
`showAlertOverItem`, lines 313-350; `showAlertsForOpenSections`,
lines 903-915)

The presentation collaborator is modelled by the list of tracked keys
whose per-item alert indicator element currently exists (`indicators`)
and the list of keys for which a tracked-item row exists in the DOM
(`elements`); the audio and notification collaborators by the requests
made of them. -/

/-- Embedding of `showAlertOverItem`: a no-op when an indicator for the
key already exists, otherwise the indicator is attached. -/
def showAlertOverItem (indicators : List String) (trackedKey : String) : List String :=
  if trackedKey ∈ indicators then indicators else indicators ++ [trackedKey]

structure AlertOutcome where
  indicators : List String
  dismissed : DismissMap
  soundRequested : Bool
  notifyRequested : Bool
  notifyMessage : Option String
  actionableKeys : List String
  newlyShownKeys : List String
deriving DecidableEq

/-- The batch notification text (lines 304-309): singular phrasing for
one section, a count for several. -/
def alertMessage (actionableSections : List TrackedItem) : String :=
  let names := actionableSections.map (fun s => s.subject ++ " " ++ s.catalogNbr)
  match names with
  | [n] => n ++ " is now OPEN!"
  | ns => toString ns.length ++ " sections are now OPEN!"

/-- Embedding of `triggerOpenAlert(openedSections)`: each opened section
that is still tracked, not suppressed, and whose tracked-item row exists
gets an alert indicator (idempotently) and joins `actionableSections`;
a sound start is requested once when any section was actionable and sound
is enabled, and a single batch notification is requested when any section
was actionable and notifications are enabled.  `newlyShownKeys` records
the indicators that did not exist before the call. -/
def triggerOpenAlert (trackedKeySet : List String) (elements : List String)
    (soundEnabled notifyEnabled : Bool) (now : Nat)
    (dismissed : DismissMap) (indicators : List String)
    (openedSections : List TrackedItem) : AlertOutcome :=
  if openedSections.isEmpty then
    { indicators := indicators, dismissed := dismissed, soundRequested := false,
      notifyRequested := false, notifyMessage := none, actionableKeys := [],
      newlyShownKeys := [] }
  else
    let loop := openedSections.foldl
      (fun (acc : List String × DismissMap × List TrackedItem × List String) item =>
        let (inds, dism, actionable, newShown) := acc
        let trackedKey := itemKey item
        if !(trackedKeySet.contains trackedKey) then acc
        else
          let q := isAlertDismissed dism now trackedKey
          if q.1 then (inds, q.2, actionable, newShown)
          else if elements.contains trackedKey then
            let shownNew := !(inds.contains trackedKey)
            (showAlertOverItem inds trackedKey, q.2, actionable ++ [item],
             if shownNew then newShown ++ [trackedKey] else newShown)
          else (inds, q.2, actionable, newShown))
      (indicators, dismissed, [], [])
    let (inds, dism, actionable, newShown) := loop
    { indicators := inds, dismissed := dism,
      soundRequested := !actionable.isEmpty && soundEnabled,
      notifyRequested := !actionable.isEmpty && notifyEnabled,
      notifyMessage := if !actionable.isEmpty && notifyEnabled then some (alertMessage actionable)
                       else none,
      actionableKeys := actionable.map itemKey,
      newlyShownKeys := newShown }

/-- Embedding of `showAlertsForOpenSections()` (lines 903-915): after page
load, every tracked section whose stored status is `"O"` and which is not
suppressed is passed to `triggerOpenAlert`. -/
def showAlertsForOpenSections (trackedSections : List TrackedItem)
    (trackedKeySet : List String) (elements : List String)
    (soundEnabled notifyEnabled : Bool) (now : Nat)
    (dismissed : DismissMap) (indicators : List String) : AlertOutcome :=
  let scan := trackedSections.foldl
    (fun (acc : List TrackedItem × DismissMap) item =>
      let (openSections, dism) := acc
      if item.lastStatus == "O" then
        let q := isAlertDismissed dism now (itemKey item)
        (if q.1 then openSections else openSections ++ [item], q.2)
      else acc)
    ([], dismissed)
  let (openSections, dism) := scan
  if openSections.isEmpty then
    { indicators := indicators, dismissed := dism, soundRequested := false,
      notifyRequested := false, notifyMessage := none, actionableKeys := [],
      newlyShownKeys := [] }
  else
    triggerOpenAlert trackedKeySet elements soundEnabled notifyEnabled now dism
      indicators openSections

/-! ## Polling engine (`refreshTrackedSections`, lines 992-1096)

The `statusIndex` `Map` from class number to reported status is modelled
as an association list with `Map.set` semantics. -/

abbrev StatusIndex : Type := List (String × String)

def mapSet (m : StatusIndex) (k v : String) : StatusIndex :=
  if m.any (fun p => p.1 == k) then
    m.map (fun p => if p.1 == k then (k, v) else p)
  else
    m ++ [(k, v)]

def mapGet (m : StatusIndex) (k : String) : Option String :=
  (m.find? (fun p => p.1 == k)).map (fun p => p.2)

/-- Build the lookup from class number to reported status out of a fetched
subject listing (lines 1021-1029). -/
def buildStatusIndex (classes : List Course) : StatusIndex :=
  classes.foldl
    (fun idx course =>
      course.enrollGroups.foldl
        (fun idx eg =>
          eg.classSections.foldl
            (fun idx sec => mapSet idx sec.classNbr sec.openStatus) idx) idx)
    []

/-- Per-item update of the inner polling loop (lines 1031-1053): an item
whose class number is absent from the lookup is left untouched; otherwise
status and timestamp are updated, and the boolean reports whether the
transition was classified newly-opened (`oldStatus !== 'O' &&
newStatus === 'O'`). -/
def refreshItem (idx : StatusIndex) (now : Nat) (item : TrackedItem) : TrackedItem × Bool :=
  match mapGet idx item.classNbr with
  | none => (item, false)
  | some newStatus =>
    ({ item with lastStatus := newStatus, lastCheckedAt := now },
     item.lastStatus != "O" && newStatus == "O")

/-- Grouping key `` `${item.roster}:${item.subject}` `` (line 1008). -/
def groupKeyOf (item : TrackedItem) : String := item.roster ++ ":" ++ item.subject

/-- A polling group: the fetch for the group uses the roster and subject
of the first item inserted under the key (lines 1006-1013). -/
structure Group where
  key : String
  roster : String
  subject : String
  items : List TrackedItem
deriving DecidableEq

/-- Embedding of the grouping loop (lines 1006-1013): a JavaScript object
keyed by strings preserves insertion order. -/
def buildGroups (items : List TrackedItem) : List Group :=
  items.foldl
    (fun groups item =>
      let key := groupKeyOf item
      if groups.any (fun g => g.key == key) then
        groups.map (fun g => if g.key == key then { g with items := g.items ++ [item] } else g)
      else
        groups ++ [{ key := key, roster := item.roster, subject := item.subject,
                     items := [item] }])
    []

/-- Apply one group's status updates to the full tracked list: exactly the
items whose grouping key matches are updated in place. -/
def updateItemsForGroup (idx : StatusIndex) (now : Nat) (gkey : String)
    (items : List TrackedItem) : List TrackedItem :=
  items.map (fun item => if groupKeyOf item == gkey then (refreshItem idx now item).1 else item)

/-- The newly-opened items contributed by one group, in iteration order;
the pushed items carry their updated status and timestamp (the code pushes
the mutated object). -/
def newlyOpenedForGroup (idx : StatusIndex) (now : Nat) (gkey : String)
    (items : List TrackedItem) : List TrackedItem :=
  (items.filter (fun item => groupKeyOf item == gkey && (refreshItem idx now item).2)).map
    (fun item => (refreshItem idx now item).1)

/-- The number of items the group's pass updated (`updatedCount`). -/
def countUpdated (idx : StatusIndex) (gkey : String) (items : List TrackedItem) : Nat :=
  (items.filter (fun item => groupKeyOf item == gkey && (mapGet idx item.classNbr).isSome)).length

inductive GroupsOutcome where
  | ok (items newlyOpened : List TrackedItem) (updatedCount : Nat)
      (fetched : List (String × String))
  | fail (items : List TrackedItem) (errMsg : String) (fetched : List (String × String))
deriving DecidableEq

/-- The `try` loop over groups (lines 1019-1054): each group performs one
fetch for its full subject listing; a failing fetch aborts the loop at
once, leaving the updates already applied in place.  `fetched` records
the (roster, subject) fetch calls actually issued, in order. -/
def runGroups (fetch : String → String → Except String (List Course)) (now : Nat) :
    List Group → List TrackedItem → List TrackedItem → Nat → List (String × String) →
    GroupsOutcome
  | [], items, acc, n, f => GroupsOutcome.ok items acc n f
  | g :: gs, items, acc, n, f =>
    match fetch g.roster g.subject with
    | Except.error e => GroupsOutcome.fail items e (f ++ [(g.roster, g.subject)])
    | Except.ok classes =>
      let idx := buildStatusIndex classes
      runGroups fetch now gs
        (updateItemsForGroup idx now g.key items)
        (acc ++ newlyOpenedForGroup idx now g.key items)
        (n + countUpdated idx g.key items)
        (f ++ [(g.roster, g.subject)])

/-- Observable outcome of one polling tick. -/
structure TickEffects where
  items : List TrackedItem
  statusText : String
  errored : Bool
  savedTracked : Bool
  soundRequested : Bool
  notifyRequested : Bool
  notifyMessage : Option String
  indicators : List String
  dismissedAfter : DismissMap
  actionableNewlyOpenedKeys : List String
  newlyShownAlertKeys : List String
  fetchedCalls : List (String × String)
  isRefreshing : Bool
deriving DecidableEq

/-- Embedding of one run of `refreshTrackedSections()` (lines 992-1096).
With nothing tracked the tick is a no-op.  Otherwise the tracked items
are grouped by roster and subject and each group fetched in turn.  On a
mid-tick failure the tick aborts: the error text is surfaced, updates
applied so far stay, nothing is persisted and no alert path runs.  On
success the set is persisted, `triggerOpenAlert` runs for the newly
opened items still tracked, and the already-open, unsuppressed,
not-newly-opened items have their indicators re-shown without sound or
notification.  (Concurrent user actions between the tick's suspension
points are outside this model, so the tracked key set and the rendered
rows coincide with the updated list.) -/
def refreshTick (fetch : String → String → Except String (List Course)) (now : Nat)
    (soundEnabled notifyEnabled : Bool) (dismissed : DismissMap)
    (indicators : List String) (items : List TrackedItem) : TickEffects :=
  if items.isEmpty then
    { items := items, statusText := "", errored := false, savedTracked := false,
      soundRequested := false, notifyRequested := false, notifyMessage := none,
      indicators := indicators, dismissedAfter := dismissed,
      actionableNewlyOpenedKeys := [], newlyShownAlertKeys := [],
      fetchedCalls := [], isRefreshing := false }
  else
    match runGroups fetch now (buildGroups items) items [] 0 [] with
    | GroupsOutcome.fail items' e fetched =>
      { items := items', statusText := getUserFriendlyError e "Refresh", errored := true,
        savedTracked := false, soundRequested := false, notifyRequested := false,
        notifyMessage := none, indicators := indicators, dismissedAfter := dismissed,
        actionableNewlyOpenedKeys := [], newlyShownAlertKeys := [],
        fetchedCalls := fetched, isRefreshing := false }
    | GroupsOutcome.ok items' newlyOpened _updatedCount fetched =>
      let activeTrackedKeys := keysOf items'
      let actionableNewlyOpened :=
        newlyOpened.filter (fun item => activeTrackedKeys.contains (itemKey item))
      let out :=
        if !actionableNewlyOpened.isEmpty then
          triggerOpenAlert activeTrackedKeys activeTrackedKeys soundEnabled notifyEnabled
            now dismissed indicators actionableNewlyOpened
        else
          { indicators := indicators, dismissed := dismissed, soundRequested := false,
            notifyRequested := false, notifyMessage := none, actionableKeys := [],
            newlyShownKeys := [] }
      let newlyOpenedSet := actionableNewlyOpened.map itemKey
      let resurface := items'.foldl
        (fun (acc : List String × DismissMap) item =>
          let (inds, dism) := acc
          let key := itemKey item
          if item.lastStatus == "O" then
            let q := isAlertDismissed dism now key
            if !q.1 && !(newlyOpenedSet.contains key) then
              (if activeTrackedKeys.contains key then showAlertOverItem inds key else inds, q.2)
            else (inds, q.2)
          else (inds, dism))
        (out.indicators, out.dismissed)
      { items := items', statusText := "", errored := false, savedTracked := true,
        soundRequested := out.soundRequested, notifyRequested := out.notifyRequested,
        notifyMessage := out.notifyMessage, indicators := resurface.1,
        dismissedAfter := resurface.2,
        actionableNewlyOpenedKeys := out.actionableKeys,
        newlyShownAlertKeys := out.newlyShownKeys,
        fetchedCalls := fetched, isRefreshing := false }

/-! ## Helper lemmas -/

theorem dispatchStart_lower (last r : Nat) (h : last ≤ r) :
    last + RATE_LIMIT_MS ≤ dispatchStart last r := by
  unfold dispatchStart
  dsimp only
  split <;> omega

theorem dismissGet_cons_eq (p : String × Nat) (m : DismissMap) (k : String) (h : p.1 = k) :
    dismissGet (p :: m) k = some p.2 := by
  simp [dismissGet, List.find?_cons_of_pos, h]

theorem dismissGet_cons_ne (p : String × Nat) (m : DismissMap) (k : String) (h : p.1 ≠ k) :
    dismissGet (p :: m) k = dismissGet m k := by
  simp [dismissGet, List.find?_cons_of_neg, h]

theorem dismissGet_dismissSet_self (m : DismissMap) (k : String) (v : Nat) :
    dismissGet (dismissSet m k v) k = some v := by
  induction m with
  | nil => simp [dismissSet, dismissGet, List.find?]
  | cons p m ih =>
    by_cases hp : p.1 = k
    · have hset : dismissSet (p :: m) k v =
          (k, v) :: m.map (fun q => if q.1 == k then (k, v) else q) := by
        simp [dismissSet, List.any_cons, hp]
      rw [hset, dismissGet_cons_eq _ _ _ rfl]
    · by_cases hm : m.any (fun q => q.1 == k) = true
      · have h1 : dismissSet (p :: m) k v =
            p :: m.map (fun q => if q.1 == k then (k, v) else q) := by
          simp [dismissSet, List.any_cons, hp, hm]
        have h2 : dismissSet m k v = m.map (fun q => if q.1 == k then (k, v) else q) := by
          simp [dismissSet, hm]
        rw [h1, dismissGet_cons_ne _ _ _ hp, ← h2]
        exact ih
      · have h1 : dismissSet (p :: m) k v = p :: (m ++ [(k, v)]) := by
          simp [dismissSet, List.any_cons, hp, hm]
        have h2 : dismissSet m k v = m ++ [(k, v)] := by
          simp [dismissSet, hm]
        rw [h1, dismissGet_cons_ne _ _ _ hp, ← h2]
        exact ih

theorem dismissGet_dismissDelete_self (m : DismissMap) (k : String) :
    dismissGet (dismissDelete m k) k = none := by
  unfold dismissGet dismissDelete
  rw [List.find?_eq_none.mpr]
  · rfl
  · intro p hp
    have := (List.mem_filter.mp hp).2
    simp only [bne_iff_ne, ne_eq] at this
    simp [this]

/-! ## C1: dispatch serialization and spacing -/

/-- C1.  For every realisable sequence of tasks submitted to
`rateLimitedFetch`, tasks dispatch strictly one at a time in submission
order (the dispatch instants are produced by the serial chain, one entry
per submitted task), and any two consecutive dispatch start instants
differ by at least `RATE_LIMIT_MS` (1000 ms), even under bursty
submission. -/
theorem scheduler_dispatch_spacing (lastRequestTime : Nat) (readyTimes : List Nat)
    (h : validReady lastRequestTime readyTimes = true) :
    spacedOk (dispatchTimes lastRequestTime readyTimes) = true ∧
    (dispatchTimes lastRequestTime readyTimes).length = readyTimes.length := by
  induction readyTimes generalizing lastRequestTime with
  | nil => exact ⟨rfl, rfl⟩
  | cons r rs ih =>
    simp only [validReady, Bool.and_eq_true, decide_eq_true_eq] at h
    obtain ⟨hlr, hrest⟩ := h
    have ih' := ih (dispatchStart lastRequestTime r)
      (by simpa [validReady] using hrest)
    refine ⟨?_, by simp [dispatchTimes, ih'.2]⟩
    cases rs with
    | nil => rfl
    | cons r2 rs2 =>
      simp only [validReady, Bool.and_eq_true, decide_eq_true_eq] at hrest
      have hspace := dispatchStart_lower (dispatchStart lastRequestTime r) r2 hrest.1
      have htail := ih'.1
      simp only [dispatchTimes] at htail ⊢
      simp only [spacedOk, Bool.and_eq_true, decide_eq_true_eq] at htail ⊢
      exact ⟨hspace, htail⟩

/-- C1 witness: a burst of three tasks (ready at 0, 1100, 2500 ms with
`lastRequestTime = 0`) is realisable and dispatches with ≥ 1000 ms
spacing. -/
theorem scheduler_dispatch_spacing_witness :
    validReady 0 [0, 1100, 2500] = true ∧
    spacedOk (dispatchTimes 0 [0, 1100, 2500]) = true ∧
    (dispatchTimes 0 [0, 1100, 2500]).length = 3 := by
  refine ⟨by decide, ?_, ?_⟩
  · exact (scheduler_dispatch_spacing 0 [0, 1100, 2500] (by decide)).1
  · exact (scheduler_dispatch_spacing 0 [0, 1100, 2500] (by decide)).2

/-! ## C7: failure isolation in the queue -/

/-- C7.  Running any list of submitted tasks through the
`rateLimitedFetch` promise chain delivers to each submission's caller
exactly its own task's outcome — a failing task's rejection goes only to
that caller — and every later-submitted task is still dispatched (the
outcome list is the pointwise outcome of every task, in submission
order, regardless of earlier failures, because the task is installed as
both fulfilment and rejection handler and the queue is reset with
`.catch(() => {})`). -/
theorem queue_failure_isolation {ε α : Type} (queue : Except ε Unit)
    (tasks : List (Unit → Except ε α)) :
    runQueue queue tasks = tasks.map (fun t => t ()) ∧
    (runQueue queue tasks).length = tasks.length := by
  have hmain : runQueue queue tasks = tasks.map (fun t => t ()) := by
    induction tasks generalizing queue with
    | nil => rfl
    | cons t ts ih =>
      cases queue with
      | ok u => simp [runQueue, promiseThenBoth, ih]
      | error e => simp [runQueue, promiseThenBoth, ih]
  exact ⟨hmain, by simp [hmain]⟩

/-! ## C8: the five-minute suppression window -/

/-- C8.  `dismiss(k)` at time `T` makes `isSuppressed(k)` true when
queried at `T + 1` minute and false when queried at `T + 6` minutes (the
window is five minutes from creation); a query past expiration evicts
the entry itself before returning false (the post-query registry has no
binding for the key), and the result is also false when the scheduled
background eviction already removed the entry. -/
theorem dismissal_window (m : DismissMap) (k : String) (T : Nat) :
    (isAlertDismissed (dismissAlertFor5Minutes m T k) (T + 60000) k).1 = true ∧
    (isAlertDismissed (dismissAlertFor5Minutes m T k) (T + 360000) k).1 = false ∧
    (isAlertDismissed (dismissAlertFor5Minutes m T k) (T + 360000) k).2 =
      dismissDelete (dismissAlertFor5Minutes m T k) k ∧
    dismissGet ((isAlertDismissed (dismissAlertFor5Minutes m T k) (T + 360000) k).2) k
      = none ∧
    (isAlertDismissed (dismissDelete (dismissAlertFor5Minutes m T k) k) (T + 360000) k).1
      = false := by
  have hget : dismissGet (dismissAlertFor5Minutes m T k) k = some (T + 5 * 60 * 1000) :=
    dismissGet_dismissSet_self m k (T + 5 * 60 * 1000)
  have hdel : dismissGet (dismissDelete (dismissAlertFor5Minutes m T k) k) k = none :=
    dismissGet_dismissDelete_self _ k
  refine ⟨?_, ?_, ?_, ?_, ?_⟩
  · simp only [isAlertDismissed, hget]
    rw [if_neg (by omega)]
  · simp only [isAlertDismissed, hget]
    rw [if_pos (by omega)]
  · simp only [isAlertDismissed, hget]
    rw [if_pos (by omega)]
  · simp only [isAlertDismissed, hget]
    rw [if_pos (by omega)]
    exact hdel
  · simp only [isAlertDismissed, hdel]

/-! ## C3: per-item status diffing on a polling tick -/

/-- C3.  On a polling tick, for a tracked section and the lookup built
from the fetched group listing: when its class number is absent, its
stored status and timestamp are left unchanged (and it is not classified
newly-opened); when present with reported status `newStatus`, the status
and timestamp are updated, and the newly-opened classification holds
exactly when the stored status was not Open and the reported status is
Open (so Open observed again as Open is not newly-opened). -/
theorem polling_status_transition (classes : List Course) (now : Nat) (item : TrackedItem) :
    (mapGet (buildStatusIndex classes) item.classNbr = none →
      refreshItem (buildStatusIndex classes) now item = (item, false)) ∧
    (∀ newStatus, mapGet (buildStatusIndex classes) item.classNbr = some newStatus →
      (refreshItem (buildStatusIndex classes) now item).1 =
        { item with lastStatus := newStatus, lastCheckedAt := now } ∧
      ((refreshItem (buildStatusIndex classes) now item).2 = true ↔
        (item.lastStatus ≠ "O" ∧ newStatus = "O"))) := by
  constructor
  · intro h
    simp [refreshItem, h]
  · intro newStatus h
    constructor
    · simp [refreshItem, h]
    · simp [refreshItem, h, Bool.and_eq_true, bne_iff_ne, beq_iff_eq]

/-! ## Concrete instances used by witnesses and counterexamples -/

def cs2110Course : Course :=
  { subject := "CS", catalogNbr := "2110", titleShort := "Object-Oriented Programming",
    enrollGroups := [⟨[⟨"11111", "201", "LEC", "O"⟩]⟩] }

def cs3110Course : Course :=
  { subject := "CS", catalogNbr := "3110", titleShort := "Functional Programming",
    enrollGroups := [⟨[⟨"22222", "001", "LEC", "C"⟩]⟩] }

def mathCourse : Course :=
  { subject := "MATH", catalogNbr := "1920", titleShort := "Multivariable Calculus",
    enrollGroups := [⟨[⟨"33333", "001", "LEC", "O"⟩]⟩] }

def itemCsClosed : TrackedItem :=
  { classNbr := "11111", roster := "FA25", subject := "CS", catalogNbr := "2110",
    title := "Object-Oriented Programming", sectionLabel := "201", ssrComponent := "LEC",
    lastStatus := "C", lastCheckedAt := 0 }

def itemMathOpen : TrackedItem :=
  { classNbr := "33333", roster := "FA25", subject := "MATH", catalogNbr := "1920",
    title := "Multivariable Calculus", sectionLabel := "001", ssrComponent := "LEC",
    lastStatus := "O", lastCheckedAt := 0 }

/-- C3 witness: with the concrete CS listing, the tracked CS section
(class number present, stored Closed, reported Open) is updated and
classified newly-opened, while a section absent from the listing is left
untouched. -/
theorem polling_status_transition_witness :
    (refreshItem (buildStatusIndex [cs2110Course]) 99 itemCsClosed).1 =
      { itemCsClosed with lastStatus := "O", lastCheckedAt := 99 } ∧
    ((refreshItem (buildStatusIndex [cs2110Course]) 99 itemCsClosed).2 = true ↔
      (itemCsClosed.lastStatus ≠ "O" ∧ "O" = "O")) ∧
    refreshItem (buildStatusIndex [cs2110Course]) 99 itemMathOpen = (itemMathOpen, false) := by
  refine ⟨?_, ?_, ?_⟩
  · exact ((polling_status_transition [cs2110Course] 99 itemCsClosed).2 "O" (by decide)).1
  · exact ((polling_status_transition [cs2110Course] 99 itemCsClosed).2 "O" (by decide)).2
  · exact (polling_status_transition [cs2110Course] 99 itemMathOpen).1 (by decide)

/-! ## C2: stale search responses are discarded, current ones applied -/

theorem applyFilter_fields (s : SearchState) (subject query : String) :
    (applyFilter s subject query).cachedClasses = s.cachedClasses ∧
    (applyFilter s subject query).cachedSubject = s.cachedSubject ∧
    (applyFilter s subject query).isSearching = s.isSearching ∧
    (applyFilter s subject query).searchError = none ∧
    (applyFilter s subject query).searchResults =
      (if query != "" then s.cachedClasses.filter (fun c => jsStartsWith c.catalogNbr query)
       else s.cachedClasses) := by
  unfold applyFilter
  by_cases hq : query != ""
  · simp only [hq, if_true]
    split <;> simp_all
  · simp only [hq, if_false]
    split <;> simp_all

/-- C2.  When a subject-listing fetch returns, it is applied only if its
sequence number is still the latest issued and the current normalized
input still equals the one that triggered it (`isCurrentSearch`): a stale
response leaves the entire coordinator state — cache, results, error,
searching flag, everything — unchanged, while a current success replaces
the cache with the fetched classes, records the subject, clears the
searching flag and error, and sets the displayed results to the
prefix-filtered listing. -/
theorem search_stale_response_discarded (s : SearchState) (requestSeq : Nat)
    (normalizedInput subject query : String) (response : Except String (List Course)) :
    (isCurrentSearch s requestSeq normalizedInput = false →
      applySearchResponse s requestSeq normalizedInput subject query response = s) ∧
    (isCurrentSearch s requestSeq normalizedInput = true →
      ∀ classes, response = Except.ok classes →
        (applySearchResponse s requestSeq normalizedInput subject query response).cachedClasses
            = classes ∧
        (applySearchResponse s requestSeq normalizedInput subject query response).cachedSubject
            = some subject ∧
        (applySearchResponse s requestSeq normalizedInput subject query response).isSearching
            = false ∧
        (applySearchResponse s requestSeq normalizedInput subject query response).searchError
            = none ∧
        (applySearchResponse s requestSeq normalizedInput subject query response).searchResults
            = (if query != "" then classes.filter (fun c => jsStartsWith c.catalogNbr query)
               else classes)) := by
  constructor
  · intro h
    cases response with
    | ok classes => simp [applySearchResponse, h]
    | error msg => simp [applySearchResponse, h]
  · intro h classes hresp
    subst hresp
    simp only [applySearchResponse, h, Bool.not_true, Bool.false_eq_true, if_false]
    have hf := applyFilter_fields
      { s with cachedClasses := classes, cachedSubject := some subject, isSearching := false }
      subject query
    exact ⟨hf.1, hf.2.1, hf.2.2.1, hf.2.2.2.1, hf.2.2.2.2⟩

def staleState : SearchState :=
  { subjectSet := ["CS", "MATH"], currentRoster := "FA25", cachedSubject := some "MATH",
    cachedClasses := [mathCourse], searchResults := [mathCourse], searchError := none,
    isSearching := true, searchRequestSeq := 2, inputValue := "CS2110",
    expandedCourses := [], searchStatus := "" }

/-- C2 witness: a response tagged with the superseded sequence number 1
is discarded wholesale, and the same response delivered while still
current (sequence 2, matching input) is applied to cache and results. -/
theorem search_stale_response_discarded_witness :
    applySearchResponse staleState 1 "CS" "CS" "" (Except.ok [cs2110Course]) = staleState ∧
    (applySearchResponse staleState 2 "CS2110" "CS" "2110"
        (Except.ok [cs2110Course, cs3110Course])).cachedClasses
      = [cs2110Course, cs3110Course] ∧
    (applySearchResponse staleState 2 "CS2110" "CS" "2110"
        (Except.ok [cs2110Course, cs3110Course])).searchResults = [cs2110Course] := by
  refine ⟨?_, ?_, ?_⟩
  · exact (search_stale_response_discarded staleState 1 "CS" "CS" ""
      (Except.ok [cs2110Course])).1 (by decide)
  · exact ((search_stale_response_discarded staleState 2 "CS2110" "CS" "2110"
      (Except.ok [cs2110Course, cs3110Course])).2 (by decide) _ rfl).1
  · have := ((search_stale_response_discarded staleState 2 "CS2110" "CS" "2110"
      (Except.ok [cs2110Course, cs3110Course])).2 (by decide) _ rfl).2.2.2.2
    rw [this]
    decide

/-! ## C6: a current fetch failure and the cache -/

/-- C6 counterexample: the claim says a search fetch failure (still
current) leaves `cachedSubject`/`cachedClasses` — the last good cache —
unchanged; in the code the `catch` branch of `performSearch` sets
`state.cachedClasses = []` and `state.cachedSubject = null`.  Here the
last good cache was the MATH listing, the CS fetch fails while current,
and the cache is wiped rather than preserved. -/
theorem search_failure_clears_cache_cex :
    staleState.cachedSubject = some "MATH" ∧
    staleState.cachedClasses = [mathCourse] ∧
    isCurrentSearch staleState 2 "CS2110" = true ∧
    (applySearchResponse staleState 2 "CS2110" "CS" "2110"
        (Except.error "Failed to fetch")).cachedSubject = none ∧
    (applySearchResponse staleState 2 "CS2110" "CS" "2110"
        (Except.error "Failed to fetch")).cachedClasses = [] := by
  refine ⟨rfl, rfl, by decide, ?_, ?_⟩ <;> decide

/-- C6 amended.  When a search fetch fails and the result is still
current, the coordinator reports a query-scoped error (the user-friendly
message for the failure, with context `"Subject"`), clears the status
line and the searching flag, and — rather than preserving the last good
cache — clears it: `cachedSubject` becomes null and `cachedClasses` and
`searchResults` become empty. -/
theorem search_failure_error_state (s : SearchState) (requestSeq : Nat)
    (normalizedInput subject query msg : String)
    (h : isCurrentSearch s requestSeq normalizedInput = true) :
    applySearchResponse s requestSeq normalizedInput subject query (Except.error msg) =
      { s with searchError := some (getUserFriendlyError msg "Subject"),
               searchStatus := "",
               cachedClasses := [], cachedSubject := none,
               searchResults := [], isSearching := false } := by
  simp [applySearchResponse, h]

/-- C6 amended witness: the concrete failing CS fetch while current. -/
theorem search_failure_error_state_witness :
    applySearchResponse staleState 2 "CS2110" "CS" "2110" (Except.error "Failed to fetch") =
      { staleState with
          searchError := some "Unable to connect. Check your internet connection.",
          searchStatus := "",
          cachedClasses := [], cachedSubject := none,
          searchResults := [], isSearching := false } := by
  have h := search_failure_error_state staleState 2 "CS2110" "CS" "2110" "Failed to fetch"
    (by decide)
  rw [h]
  decide

/-! ## C4: a mid-tick fetch failure aborts the tick -/

/-- The classes carried by a successful fetch result (and `[]` for a
failed one; only used under a success hypothesis). -/
def okClasses : Except String (List Course) → List Course
  | Except.ok cs => cs
  | Except.error _ => []

/-- The tracked list after the status updates of the given (successfully
fetched) groups have been applied, in order. -/
def applyOkGroups (fetch : String → String → Except String (List Course)) (now : Nat)
    (gs : List Group) (items : List TrackedItem) : List TrackedItem :=
  gs.foldl
    (fun its g =>
      updateItemsForGroup (buildStatusIndex (okClasses (fetch g.roster g.subject))) now g.key its)
    items

theorem runGroups_fail_at (fetch : String → String → Except String (List Course)) (now : Nat)
    (gs1 : List Group) (g : Group) (gs2 : List Group) (e : String)
    (hok : ∀ g' ∈ gs1, ∃ cs, fetch g'.roster g'.subject = Except.ok cs)
    (herr : fetch g.roster g.subject = Except.error e) :
    ∀ (items acc : List TrackedItem) (n : Nat) (f : List (String × String)),
      runGroups fetch now (gs1 ++ g :: gs2) items acc n f =
        GroupsOutcome.fail (applyOkGroups fetch now gs1 items) e
          (f ++ gs1.map (fun g' => (g'.roster, g'.subject)) ++ [(g.roster, g.subject)]) := by
  induction gs1 with
  | nil =>
    intro items acc n f
    simp [runGroups, herr, applyOkGroups]
  | cons g1 gs1 ih =>
    intro items acc n f
    obtain ⟨cs, hcs⟩ := hok g1 (List.mem_cons_self g1 gs1)
    have ih' := ih (fun g' hg' => hok g' (List.mem_cons_of_mem g1 hg'))
    simp only [List.cons_append, runGroups, hcs]
    rw [List.append_eq, ih']
    simp [applyOkGroups, hcs, okClasses, List.append_assoc]

/-- An item whose grouping key matches none of the given groups is left
in place by their updates. -/
theorem applyOkGroups_untouched (fetch : String → String → Except String (List Course))
    (now : Nat) (gs : List Group) (items : List TrackedItem) (item : TrackedItem)
    (hmem : item ∈ items) (hkey : ∀ g' ∈ gs, groupKeyOf item ≠ g'.key) :
    item ∈ applyOkGroups fetch now gs items := by
  induction gs generalizing items with
  | nil => simpa [applyOkGroups] using hmem
  | cons g gs ih =>
    have hne : groupKeyOf item ≠ g.key := hkey g (List.mem_cons_self g gs)
    have hstep : item ∈ updateItemsForGroup
        (buildStatusIndex (okClasses (fetch g.roster g.subject))) now g.key items := by
      unfold updateItemsForGroup
      refine List.mem_map.mpr ⟨item, hmem, ?_⟩
      simp [hne]
    have := ih (updateItemsForGroup (buildStatusIndex (okClasses (fetch g.roster g.subject)))
        now g.key items) hstep (fun g' hg' => hkey g' (List.mem_cons_of_mem g hg'))
    simpa [applyOkGroups] using this

/-- C4.  If, on a polling tick, the groups split as `gs1 ++ g :: gs2`
where every group of `gs1` fetches successfully and `g`'s fetch fails,
the tick aborts immediately: the resulting tracked list carries exactly
the updates of the groups before the failure (every item outside those
groups is untouched), the transient error text is surfaced, nothing is
persisted, no alert of any kind (sound, notification, indicator) is
issued, the suppression registry is untouched, the failing fetch is
issued exactly once with no retry and no further group is fetched, and
the engine is left ready for the next tick (`isRefreshing` cleared). -/
theorem tick_failure_aborts (fetch : String → String → Except String (List Course)) (now : Nat)
    (soundEnabled notifyEnabled : Bool) (dismissed : DismissMap) (indicators : List String)
    (items : List TrackedItem) (e : String) (gs1 : List Group) (g : Group) (gs2 : List Group)
    (hgroups : buildGroups items = gs1 ++ g :: gs2)
    (hok : ∀ g' ∈ gs1, ∃ cs, fetch g'.roster g'.subject = Except.ok cs)
    (herr : fetch g.roster g.subject = Except.error e)
    (hne : items ≠ []) :
    refreshTick fetch now soundEnabled notifyEnabled dismissed indicators items =
      { items := applyOkGroups fetch now gs1 items,
        statusText := getUserFriendlyError e "Refresh", errored := true,
        savedTracked := false, soundRequested := false, notifyRequested := false,
        notifyMessage := none, indicators := indicators, dismissedAfter := dismissed,
        actionableNewlyOpenedKeys := [], newlyShownAlertKeys := [],
        fetchedCalls := gs1.map (fun g' => (g'.roster, g'.subject)) ++ [(g.roster, g.subject)],
        isRefreshing := false } ∧
    (∀ item ∈ items, (∀ g' ∈ gs1, groupKeyOf item ≠ g'.key) →
      item ∈ (refreshTick fetch now soundEnabled notifyEnabled dismissed indicators items).items) := by
  have hmain : refreshTick fetch now soundEnabled notifyEnabled dismissed indicators items =
      { items := applyOkGroups fetch now gs1 items,
        statusText := getUserFriendlyError e "Refresh", errored := true,
        savedTracked := false, soundRequested := false, notifyRequested := false,
        notifyMessage := none, indicators := indicators, dismissedAfter := dismissed,
        actionableNewlyOpenedKeys := [], newlyShownAlertKeys := [],
        fetchedCalls := gs1.map (fun g' => (g'.roster, g'.subject)) ++ [(g.roster, g.subject)],
        isRefreshing := false } := by
    unfold refreshTick
    rw [if_neg (by simpa [List.isEmpty_iff] using hne)]
    rw [hgroups, runGroups_fail_at fetch now gs1 g gs2 e hok herr items [] 0 []]
    simp
  refine ⟨hmain, ?_⟩
  intro item hmem hkey
  rw [hmain]
  exact applyOkGroups_untouched fetch now gs1 items item hmem hkey

/-- A fetch function for the witness: the CS listing succeeds, the MATH
fetch fails with a network error. -/
def fetchFailMath : String → String → Except String (List Course) := fun _ subject =>
  if subject == "CS" then Except.ok [cs2110Course] else Except.error "Failed to fetch"

def csGroupW : Group :=
  { key := "FA25:CS", roster := "FA25", subject := "CS", items := [itemCsClosed] }

def mathGroupW : Group :=
  { key := "FA25:MATH", roster := "FA25", subject := "MATH", items := [itemMathOpen] }

/-- C4 witness: two tracked sections in two groups; the second group's
fetch fails.  The CS update survives, the MATH item is untouched, the
error is surfaced and no alert fires. -/
theorem tick_failure_aborts_witness :
    refreshTick fetchFailMath 99 true true [] [] [itemCsClosed, itemMathOpen] =
      { items := applyOkGroups fetchFailMath 99 [csGroupW] [itemCsClosed, itemMathOpen],
        statusText := getUserFriendlyError "Failed to fetch" "Refresh", errored := true,
        savedTracked := false, soundRequested := false, notifyRequested := false,
        notifyMessage := none, indicators := [], dismissedAfter := [],
        actionableNewlyOpenedKeys := [], newlyShownAlertKeys := [],
        fetchedCalls := [csGroupW].map (fun g' => (g'.roster, g'.subject))
          ++ [(mathGroupW.roster, mathGroupW.subject)],
        isRefreshing := false } ∧
    itemMathOpen ∈ (refreshTick fetchFailMath 99 true true [] []
        [itemCsClosed, itemMathOpen]).items := by
  have h := tick_failure_aborts fetchFailMath 99 true true [] []
    [itemCsClosed, itemMathOpen] "Failed to fetch" [csGroupW] mathGroupW []
    (by decide) (fun g' hg' => by
      refine ⟨[cs2110Course], ?_⟩
      have : g' = csGroupW := by simpa using hg'
      rw [this]
      rfl)
    rfl (by decide)
  refine ⟨h.1, ?_⟩
  exact h.2 itemMathOpen (by decide) (fun g' hg' => by
    have : g' = csGroupW := by simpa using hg'
    rw [this]
    decide)

/-! ## C5: "CS" then "CS2110" before the first fetch completes -/

def coordInit : CoordState :=
  { search := { subjectSet := ["CS"], currentRoster := "FA25", cachedSubject := none,
                cachedClasses := [], searchResults := [], searchError := none,
                isSearching := false, searchRequestSeq := 0, inputValue := "",
                expandedCourses := [], searchStatus := "" },
    timerPending := false, pending := [], fetchCount := 0 }

/-- C5 counterexample.  The claim says that searching "CS" and then,
before the first fetch completes, "CS2110" yields exactly one fetch, the
second input being served as an immediate synchronous local filter.  In
the code the subject cache is only populated when the fetch completes,
so: after "CS"'s debounce timer fires (fetch one in flight) the input
"CS2110" does not take the immediate local-filter path (the debounce
timer is re-armed and no synchronous `performSearch` runs), and when
that second debounce fires a second network fetch is issued — two
fetches, not one. -/
theorem burst_search_two_fetches_cex :
    (coordRun coordInit [CoordEvent.inputEv "CS", CoordEvent.timerFire,
        CoordEvent.inputEv "CS2110"]).timerPending = true ∧
    (coordRun coordInit [CoordEvent.inputEv "CS", CoordEvent.timerFire,
        CoordEvent.inputEv "CS2110"]).fetchCount = 1 ∧
    (coordRun coordInit [CoordEvent.inputEv "CS", CoordEvent.timerFire,
        CoordEvent.inputEv "CS2110", CoordEvent.timerFire]).fetchCount = 2 := by
  refine ⟨?_, ?_, ?_⟩ <;> decide

/-- C5 amended.  Searching "CS" and then "CS2110" before the first fetch
completes is served as follows.  (a) If the second input arrives before
the first debounce window elapses, no fetch has been issued yet, the
timer is simply re-armed, and exactly one fetch occurs — issued for the
second input (sequence 1, normalized input "CS2110", subject "CS") after
its own settling window; it is debounced, not an immediate local filter.
(b) If the second input arrives while the first fetch is in flight, a
second fetch is issued and the first response is then discarded as stale,
changing nothing.  (c) Only once the "CS" fetch has completed does
"CS2110" take the immediate synchronous local prefix-filter path: no
debounce timer is armed and no further fetch occurs. -/
theorem burst_search_amended :
    (coordRun coordInit [CoordEvent.inputEv "CS", CoordEvent.inputEv "CS2110"]).fetchCount
      = 0 ∧
    (coordRun coordInit [CoordEvent.inputEv "CS", CoordEvent.inputEv "CS2110"]).timerPending
      = true ∧
    (coordRun coordInit [CoordEvent.inputEv "CS", CoordEvent.inputEv "CS2110",
        CoordEvent.timerFire]).fetchCount = 1 ∧
    (coordRun coordInit [CoordEvent.inputEv "CS", CoordEvent.inputEv "CS2110",
        CoordEvent.timerFire]).pending = [(1, "CS2110", "CS", "2110")] ∧
    (coordRun coordInit [CoordEvent.inputEv "CS", CoordEvent.timerFire,
        CoordEvent.inputEv "CS2110", CoordEvent.timerFire]).fetchCount = 2 ∧
    (coordRun coordInit [CoordEvent.inputEv "CS", CoordEvent.timerFire,
        CoordEvent.inputEv "CS2110", CoordEvent.timerFire,
        CoordEvent.respond 1 (Except.ok [cs2110Course])]).search
      = (coordRun coordInit [CoordEvent.inputEv "CS", CoordEvent.timerFire,
          CoordEvent.inputEv "CS2110", CoordEvent.timerFire]).search ∧
    (coordRun coordInit [CoordEvent.inputEv "CS", CoordEvent.timerFire,
        CoordEvent.respond 1 (Except.ok [cs2110Course, cs3110Course]),
        CoordEvent.inputEv "CS2110"]).fetchCount = 1 ∧
    (coordRun coordInit [CoordEvent.inputEv "CS", CoordEvent.timerFire,
        CoordEvent.respond 1 (Except.ok [cs2110Course, cs3110Course]),
        CoordEvent.inputEv "CS2110"]).timerPending = false ∧
    (coordRun coordInit [CoordEvent.inputEv "CS", CoordEvent.timerFire,
        CoordEvent.respond 1 (Except.ok [cs2110Course, cs3110Course]),
        CoordEvent.inputEv "CS2110"]).search.searchResults = [cs2110Course] := by
  refine ⟨?_, ?_, ?_, ?_, ?_, ?_, ?_, ?_, ?_⟩ <;> decide

/-! ## C9: what triggers sound and notification -/

/-- C9 counterexample.  The claim says re-surfacing the indicator for an
item whose stored status was already Open never causes a sound-start
request or a system notification.  But on page load
`showAlertsForOpenSections` passes every stored-Open, unsuppressed
tracked section to `triggerOpenAlert`, which requests the tone and a
notification although no non-Open→Open transition was classified: here
the single tracked item is stored as already Open and both requests
fire. -/
theorem already_open_alert_sound_cex :
    itemMathOpen.lastStatus = "O" ∧
    (showAlertsForOpenSections [itemMathOpen] ["FA25:33333"] ["FA25:33333"]
        true true 0 [] []).soundRequested = true ∧
    (showAlertsForOpenSections [itemMathOpen] ["FA25:33333"] ["FA25:33333"]
        true true 0 [] []).notifyRequested = true := by
  refine ⟨rfl, ?_, ?_⟩ <;> decide

theorem isAlertDismissed_again_false (m : DismissMap) (now : Nat) (k : String)
    (h : (isAlertDismissed m now k).1 = false) :
    isAlertDismissed (isAlertDismissed m now k).2 now k = (false, (isAlertDismissed m now k).2) := by
  cases hg : dismissGet m k with
  | none => simp [isAlertDismissed, hg]
  | some exp =>
    by_cases hlt : now > exp
    · simp [isAlertDismissed, hg, hlt, dismissGet_dismissDelete_self]
    · exfalso
      rw [isAlertDismissed, hg] at h
      simp [hlt] at h

theorem triggerOpenAlert_requests (ks els : List String) (sE nE : Bool) (now : Nat)
    (dism : DismissMap) (inds : List String) (opened : List TrackedItem) :
    ((triggerOpenAlert ks els sE nE now dism inds opened).soundRequested = true →
      sE = true ∧ (triggerOpenAlert ks els sE nE now dism inds opened).actionableKeys ≠ []) ∧
    ((triggerOpenAlert ks els sE nE now dism inds opened).notifyRequested = true →
      nE = true ∧ (triggerOpenAlert ks els sE nE now dism inds opened).actionableKeys ≠ []) ∧
    ((triggerOpenAlert ks els sE nE now dism inds opened).actionableKeys = [] →
      (triggerOpenAlert ks els sE nE now dism inds opened).soundRequested = false ∧
      (triggerOpenAlert ks els sE nE now dism inds opened).notifyRequested = false ∧
      (triggerOpenAlert ks els sE nE now dism inds opened).notifyMessage = none) := by
  unfold triggerOpenAlert
  split
  · simp
  · rcases hfold : opened.foldl
        (fun (acc : List String × DismissMap × List TrackedItem × List String) item =>
          let (inds', dism', actionable, newShown) := acc
          let trackedKey := itemKey item
          if !(ks.contains trackedKey) then acc
          else
            let q := isAlertDismissed dism' now trackedKey
            if q.1 then (inds', q.2, actionable, newShown)
            else if els.contains trackedKey then
              let shownNew := !(inds'.contains trackedKey)
              (showAlertOverItem inds' trackedKey, q.2, actionable ++ [item],
               if shownNew then newShown ++ [trackedKey] else newShown)
            else (inds', q.2, actionable, newShown))
        (inds, dism, [], []) with ⟨a, b, c, d⟩
    dsimp only
    refine ⟨?_, ?_, ?_⟩
    · intro hs
      rw [Bool.and_eq_true] at hs
      refine ⟨hs.2, ?_⟩
      simp only [ne_eq, List.map_eq_nil_iff]
      intro hc
      rw [hc] at hs
      simp at hs
    · intro hs
      rw [Bool.and_eq_true] at hs
      refine ⟨hs.2, ?_⟩
      simp only [ne_eq, List.map_eq_nil_iff]
      intro hc
      rw [hc] at hs
      simp at hs
    · intro hk
      simp only [List.map_eq_nil_iff] at hk
      subst hk
      simp

/-- C9 amended.  Within a polling tick, re-surfacing indicators for
already-open sections never requests sound or notification: the tick
requests the tone start or the (single, batched) notification only when
at least one newly-opened item was actionable — still tracked,
unsuppressed, with a rendered row — and the matching setting is enabled,
even if that item's indicator was already visible; when no newly-opened
item is actionable the tick requests neither, whatever it re-surfaces.
Outside ticks, however, the startup pass (`showAlertsForOpenSections`)
does request sound and notification for an already-open, unsuppressed
tracked item. -/
theorem alert_sound_conditions :
    (∀ (fetch : String → String → Except String (List Course)) (now : Nat)
        (soundEnabled notifyEnabled : Bool) (dismissed : DismissMap)
        (indicators : List String) (items : List TrackedItem),
      ((refreshTick fetch now soundEnabled notifyEnabled dismissed indicators
          items).soundRequested = true →
        soundEnabled = true ∧
        (refreshTick fetch now soundEnabled notifyEnabled dismissed indicators
          items).actionableNewlyOpenedKeys ≠ []) ∧
      ((refreshTick fetch now soundEnabled notifyEnabled dismissed indicators
          items).notifyRequested = true →
        notifyEnabled = true ∧
        (refreshTick fetch now soundEnabled notifyEnabled dismissed indicators
          items).actionableNewlyOpenedKeys ≠ []) ∧
      ((refreshTick fetch now soundEnabled notifyEnabled dismissed indicators
          items).actionableNewlyOpenedKeys = [] →
        (refreshTick fetch now soundEnabled notifyEnabled dismissed indicators
          items).soundRequested = false ∧
        (refreshTick fetch now soundEnabled notifyEnabled dismissed indicators
          items).notifyRequested = false ∧
        (refreshTick fetch now soundEnabled notifyEnabled dismissed indicators
          items).notifyMessage = none)) ∧
    (∀ (item : TrackedItem) (trackedKeySet elements indicators : List String)
        (dismissed : DismissMap) (now : Nat),
      item.lastStatus = "O" →
      (isAlertDismissed dismissed now (itemKey item)).1 = false →
      trackedKeySet.contains (itemKey item) = true →
      elements.contains (itemKey item) = true →
      (showAlertsForOpenSections [item] trackedKeySet elements true true now dismissed
        indicators).soundRequested = true ∧
      (showAlertsForOpenSections [item] trackedKeySet elements true true now dismissed
        indicators).notifyRequested = true) := by
  constructor
  · intro fetch now sE nE dism inds items
    unfold refreshTick
    split
    · simp
    · split
      · simp
      · rename_i items' newlyOpened n fetched heq
        dsimp only
        split
        · rename_i hpre
          exact triggerOpenAlert_requests (keysOf items') (keysOf items') sE nE now dism inds
            (newlyOpened.filter (fun item => (keysOf items').contains (itemKey item)))
        · simp
  · intro item ks els inds dism now h1 h2 h3 h4
    have hq := isAlertDismissed_again_false dism now (itemKey item) h2
    unfold showAlertsForOpenSections
    simp only [List.foldl_cons, List.foldl_nil, h1, beq_self_eq_true, if_true, h2,
      Bool.false_eq_true, if_false, List.nil_append, List.isEmpty_cons]
    unfold triggerOpenAlert
    simp only [List.isEmpty_cons, Bool.false_eq_true, if_false, List.foldl_cons,
      List.foldl_nil, h3, Bool.not_true, hq, h4, if_true, List.nil_append,
      List.isEmpty_cons, Bool.and_self]
    simp

def fetchCsOnly : String → String → Except String (List Course) := fun _ _ =>
  Except.ok [cs2110Course]

/-- C9 amended witness: a tick in which the tracked CS section newly
opens has a nonempty actionable set behind its sound request, and the
startup pass for an already-open item whose suppression entry has
expired requests both sound and notification. -/
theorem alert_sound_conditions_witness :
    (true = true ∧
      (refreshTick fetchCsOnly 99 true true [] [] [itemCsClosed]).actionableNewlyOpenedKeys
        ≠ []) ∧
    ((showAlertsForOpenSections [itemMathOpen] ["FA25:33333"] ["FA25:33333"] true true 5
        [("FA25:33333", 3)] []).soundRequested = true ∧
      (showAlertsForOpenSections [itemMathOpen] ["FA25:33333"] ["FA25:33333"] true true 5
        [("FA25:33333", 3)] []).notifyRequested = true) := by
  constructor
  · exact (alert_sound_conditions.1 fetchCsOnly 99 true true [] [] [itemCsClosed]).1
      (by decide)
  · exact alert_sound_conditions.2 itemMathOpen ["FA25:33333"] ["FA25:33333"] []
      [("FA25:33333", 3)] 5 rfl (by decide) (by decide) (by decide)

/-! ## C10: the tracked list and its parallel key set never disagree -/

theorem mem_keySetAdd (s : List String) (k a : String) :
    a ∈ keySetAdd s k ↔ a ∈ s ∨ a = k := by
  unfold keySetAdd
  split
  · rename_i h
    constructor
    · exact Or.inl
    · rintro (ha | rfl)
      · exact ha
      · exact h
  · simp

theorem nodup_keySetAdd (s : List String) (k : String) (h : s.Nodup) :
    (keySetAdd s k).Nodup := by
  unfold keySetAdd
  split
  · exact h
  · rename_i hk
    rw [List.nodup_append]
    exact ⟨h, List.nodup_singleton k, by
      intro a ha hb
      rw [List.mem_singleton] at hb
      subst hb
      exact hk ha⟩

theorem mem_foldl_keySetAdd (l : List TrackedItem) :
    ∀ (s : List String) (a : String),
      a ∈ l.foldl (fun s item => keySetAdd s (itemKey item)) s ↔ a ∈ s ∨ a ∈ keysOf l := by
  induction l with
  | nil => intro s a; simp [keysOf]
  | cons item l ih =>
    intro s a
    rw [List.foldl_cons, ih, mem_keySetAdd]
    simp [keysOf]
    tauto

theorem nodup_foldl_keySetAdd (l : List TrackedItem) :
    ∀ (s : List String), s.Nodup →
      (l.foldl (fun s item => keySetAdd s (itemKey item)) s).Nodup := by
  induction l with
  | nil => intro s h; exact h
  | cons item l ih =>
    intro s h
    exact ih _ (nodup_keySetAdd s (itemKey item) h)

theorem mem_keySetDelete (s : List String) (k a : String) :
    a ∈ keySetDelete s k ↔ a ∈ s ∧ a ≠ k := by
  unfold keySetDelete
  simp [List.mem_filter]

theorem mem_foldl_keySetDelete (rem : List String) :
    ∀ (s : List String) (a : String),
      a ∈ rem.foldl keySetDelete s ↔ a ∈ s ∧ a ∉ rem := by
  induction rem with
  | nil => intro s a; simp
  | cons r rem ih =>
    intro s a
    rw [List.foldl_cons, ih, mem_keySetDelete]
    simp
    tauto

theorem nodup_foldl_keySetDelete (rem : List String) :
    ∀ (s : List String), s.Nodup → (rem.foldl keySetDelete s).Nodup := by
  induction rem with
  | nil => intro s h; exact h
  | cons r rem ih =>
    intro s h
    exact ih _ (List.Nodup.filter _ h)

/-- The TrackingStore invariant: the tracked list holds at most one entry
per key (hence per (roster, classNbr) identity), the parallel key set
holds no duplicates, and the two contain exactly the same keys. -/
def TrackInv (st : TrackState) : Prop :=
  (keysOf st.trackedSections).Nodup ∧
  st.trackedKeySet.Nodup ∧
  (∀ k ∈ st.trackedKeySet, k ∈ keysOf st.trackedSections) ∧
  (∀ k ∈ keysOf st.trackedSections, k ∈ st.trackedKeySet)

/-- C10.  Every operation that mutates the tracked set maintains the
store invariant: loading a stored snapshot (whose keys are unique, as
every snapshot the app persists is) establishes it, and `toggleTrack`
and `untrack` preserve it — so the list keeps at most one entry per
(roster, classNbr) identity and the auxiliary key set always holds
exactly the keys derived from the list. -/
theorem tracking_invariant_preserved :
    (∀ stored : List TrackedItem, (keysOf stored).Nodup →
      TrackInv (loadTrackedSections stored)) ∧
    (∀ (st : TrackState) (currentRoster classNbr subject catalogNbr title sectionLabel
        ssrComponent openStatus : String) (now : Nat), TrackInv st →
      TrackInv (toggleTrack st currentRoster classNbr subject catalogNbr title sectionLabel
        ssrComponent openStatus now)) ∧
    (∀ (st : TrackState) (dismissed : DismissMap) (classNbr : String)
        (roster : Option String), TrackInv st →
      TrackInv (untrack st dismissed classNbr roster).1) := by
  refine ⟨?_, ?_, ?_⟩
  · intro stored h
    refine ⟨h, nodup_foldl_keySetAdd stored [] (List.nodup_nil), ?_, ?_⟩
    · intro k hk
      rcases (mem_foldl_keySetAdd stored [] k).mp hk with h' | h'
      · cases h'
      · exact h'
    · intro k hk
      exact (mem_foldl_keySetAdd stored [] k).mpr (Or.inr hk)
  · intro st currentRoster classNbr subject catalogNbr title sectionLabel ssrComponent
      openStatus now hinv
    obtain ⟨hnd, hnds, hsub, hsup⟩ := hinv
    unfold toggleTrack
    dsimp only
    split
    · exact ⟨hnd, hnds, hsub, hsup⟩
    · rename_i hnotin
      have hkeynot : currentRoster ++ ":" ++ classNbr ∉ keysOf st.trackedSections := by
        intro hmem
        exact hnotin (hsup _ hmem)
      refine ⟨?_, ?_, ?_, ?_⟩
      · simp only [keysOf, List.map_append, List.map_cons, List.map_nil]
        rw [List.nodup_append]
        refine ⟨hnd, List.nodup_singleton _, ?_⟩
        intro a ha hb
        rw [List.mem_singleton] at hb
        subst hb
        exact hkeynot ha
      · exact nodup_keySetAdd _ _ hnds
      · intro k hk
        rcases (mem_keySetAdd _ _ k).mp hk with h' | h'
        · simpa [keysOf] using Or.inl (hsub k h')
        · subst h'
          simp [keysOf, itemKey]
      · intro k hk
        simp only [keysOf, List.map_append, List.map_cons, List.map_nil,
          List.mem_append, List.mem_singleton] at hk
        rcases hk with h' | h'
        · exact (mem_keySetAdd _ _ k).mpr (Or.inl (hsup k (by simpa [keysOf] using h')))
        · exact (mem_keySetAdd _ _ k).mpr (Or.inr (by simpa [itemKey] using h'))
  · intro st dismissed classNbr roster hinv
    obtain ⟨hnd, hnds, hsub, hsup⟩ := hinv
    unfold untrack
    dsimp only
    refine ⟨?_, ?_, ?_, ?_⟩
    · exact List.Nodup.sublist (List.Sublist.map itemKey (List.filter_sublist _)) hnd
    · exact nodup_foldl_keySetDelete _ st.trackedKeySet hnds
    · intro k hk
      rcases (mem_foldl_keySetDelete _ st.trackedKeySet k).mp hk with ⟨hks, hnr⟩
      have hkeys := hsub k hks
      simp only [keysOf, List.mem_map] at hkeys
      obtain ⟨item, hitem, rfl⟩ := hkeys
      have hkept : (item.classNbr == classNbr && (roster.isNone || some item.roster == roster))
          = false := by
        by_contra hc
        rw [Bool.not_eq_false] at hc
        exact hnr (List.mem_map.mpr ⟨item, List.mem_filter.mpr ⟨hitem, hc⟩, rfl⟩)
      simp only [keysOf, List.mem_map]
      refine ⟨item, List.mem_filter.mpr ⟨hitem, ?_⟩, rfl⟩
      simp only [hkept]
      rfl
    · intro k hk
      simp only [keysOf, List.mem_map] at hk
      obtain ⟨item, hitem, rfl⟩ := hk
      have hmem := (List.mem_filter.mp hitem).1
      have hnot := (List.mem_filter.mp hitem).2
      rw [mem_foldl_keySetDelete]
      refine ⟨hsup _ (List.mem_map.mpr ⟨item, hmem, rfl⟩), ?_⟩
      intro hin
      obtain ⟨item2, hitem2, hkeq⟩ := List.mem_map.mp hin
      have hmem2 := (List.mem_filter.mp hitem2).1
      have heqit : item2 = item := List.inj_on_of_nodup_map hnd hmem2 hmem hkeq
      subst heqit
      have htrue := (List.mem_filter.mp hitem2).2
      simp only [htrue] at hnot
      simp at hnot

def trackedStored : List TrackedItem := [itemCsClosed, itemMathOpen]

/-- C10 witness: loading a two-item snapshot establishes the invariant,
and tracking a third section and untracking one of them preserve it. -/
theorem tracking_invariant_preserved_witness :
    TrackInv (loadTrackedSections trackedStored) ∧
    TrackInv (toggleTrack (loadTrackedSections trackedStored) "FA25" "44444" "CS" "4820"
      "Analysis of Algorithms" "001" "LEC" "C" 7) ∧
    TrackInv (untrack (loadTrackedSections trackedStored) [] "11111" none).1 := by
  refine ⟨?_, ?_, ?_⟩
  · exact tracking_invariant_preserved.1 trackedStored (by decide)
  · exact tracking_invariant_preserved.2.1 (loadTrackedSections trackedStored) "FA25" "44444"
      "CS" "4820" "Analysis of Algorithms" "001" "LEC" "C" 7
      (tracking_invariant_preserved.1 trackedStored (by decide))
  · exact tracking_invariant_preserved.2.2 (loadTrackedSections trackedStored) [] "11111" none
      (tracking_invariant_preserved.1 trackedStored (by decide))

end CourseSnag
